import Mathlib

/-!
Verification of the paraswap-sdk facade module (`src/lib/dexs/index.ts` and its
sibling facade file): the DEX adapter registry `DEXS`, the `ParaSwap` facade
class (construction-time transport and contract-caller resolution, capability
assembly), its uniform error normalization `handleAPIError`, and the forwarding
methods. TypeScript runtime values are embedded shallowly: thrown assertions
become an explicit `thrown` outcome, rejected promises become `Except.error`,
and JavaScript objects of unknown shape become `JsonVal`.
-/

/-- JSON-like runtime value: opaque success payloads and axios response bodies
(`data: any` in the source). -/
inductive JsonVal where
  | null
  | bool (b : Bool)
  | num (n : Int)
  | str (s : String)
  | obj (fields : List (String × JsonVal))

/-- Message of the `TypeError` raised by JavaScript property access on `null`. -/
def typeErrorNullRead (k : String) : String :=
  "TypeError: Cannot read properties of null (reading " ++ k ++ ")"

/-- Property access `v.k` on a runtime value: on `null` it throws a
`TypeError`; on an object it yields the field, or `undefined` (here `none`)
when absent; on any other value (string, number, boolean) it yields
`undefined`. -/
def jsonGet : JsonVal → String → Except String (Option JsonVal)
  | JsonVal.null, k => Except.error (typeErrorNullRead k)
  | JsonVal.obj fields, k =>
      Except.ok ((fields.find? (fun f => f.1 == k)).map (fun f => f.2))
  | _, _ => Except.ok none

/-- The two adapter implementations imported by the registry module:
`UniswapV1` from `./uniswap-v1` and `UniswapV2` from `./uniswap-v2`. -/
inductive AdapterImpl where
  | uniswapV1
  | uniswapV2
  deriving DecidableEq, Repr

/-- The object literal `DEXS` of `src/lib/dexs/index.ts`, as an association
list of (exchange identifier, adapter implementation). -/
def DEXS : List (String × AdapterImpl) :=
  [("uniswap", AdapterImpl.uniswapV1),
   ("uniswapv2", AdapterImpl.uniswapV2),
   ("sushiswap", AdapterImpl.uniswapV2),
   ("defiswap", AdapterImpl.uniswapV2),
   ("linkswap", AdapterImpl.uniswapV2)]

/-- Property lookup `DEXS[dex]` on the registry object: the implementation for
a known identifier, `undefined` (here `none`) for any other key. -/
def lookupDEX (dex : String) : Option AdapterImpl :=
  (DEXS.find? (fun kv => kv.1 == dex)).map (fun kv => kv.2)

abbrev Address := String
abbrev AddressOrSymbol := String
abbrev PriceString := String

/-- Opaque wallet provider (`Web3`), identified by an id. -/
abbrev Web3 := Nat
/-- Opaque read-only chain provider (ethers `BaseProvider`), identified by an id. -/
abbrev EthersProvider := Nat
/-- Opaque promise-based HTTP client (`AxiosStatic`), identified by an id. -/
abbrev AxiosStatic := Nat
/-- Opaque native fetch-like function, identified by an id. -/
abbrev FetchFn := Nat

/-- `SwapSide` from `./constants`. -/
inductive SwapSide where
  | SELL
  | BUY
  deriving DecidableEq, Repr

/-- Opaque `RateOptions` object, passed through to the delegate. -/
abbrev RateOptions := JsonVal
/-- Opaque `BuildOptions` object, passed through to the delegate. -/
abbrev BuildOptions := JsonVal
/-- Opaque web3 `SendOptions` object. -/
abbrev SendOptions := JsonVal

/-- An axios server response carried by a transport error: HTTP status code and
response body (`data`, of unknown shape). -/
structure AxiosResponse where
  status : Nat
  data : JsonVal

/-- A delegated-call rejection value (`e: unknown` in `handleAPIError`): either
an axios transport error — carrying its own message and an optional server
response — or any other thrown value, carried as its string rendering
(the result of the template interpolation of `e`). -/
inductive Failure where
  | other (stringified : String)
  | axios (message : String) (response : Option AxiosResponse)

/-- The `APIError` shape `{ message: string; status?: number; data?: any }`.
The `message` field is `Option` because the source assigns `data.error`, a
property of an `any`-typed body that can be `undefined` at runtime. -/
structure APIError where
  message : Option JsonVal
  status : Option Nat
  data : Option JsonVal

/-- `ParaSwap.handleAPIError`: if `e` is not an axios error, return
`{ message: "Unknown error: " + e }`; if it has no `response`, return
`{ message: e.message }`; else return `{ status, message: data.error, data }`.
The access `data.error` throws a `TypeError` when the response body is `null`;
that exception propagates out of `handleAPIError` (modelled as `Except.error`)
instead of producing a normalized value. -/
def handleAPIError : Failure → Except String APIError
  | Failure.other s =>
      Except.ok { message := some (JsonVal.str ("Unknown error: " ++ s)),
                  status := none, data := none }
  | Failure.axios msg none =>
      Except.ok { message := some (JsonVal.str msg), status := none, data := none }
  | Failure.axios _ (some r) =>
      match jsonGet r.data "error" with
      | Except.error t => Except.error t
      | Except.ok errField =>
          Except.ok { message := errField, status := some r.status, data := some r.data }

/-- A resolved transport: `constructAxiosFetcher(axios)` or
`constructFetchFetcher(fetch)`, tagged by which client it wraps. -/
inductive Fetcher where
  | axiosFetcher (a : AxiosStatic)
  | fetchFetcher (f : FetchFn)
  deriving DecidableEq, Repr

/-- A resolved contract-calling backend: `constructEthersContractCaller` or
`constructWeb3ContractCaller`, tagged by which provider it wraps. -/
inductive ContractCaller where
  | ethers (p : EthersProvider)
  | web3 (p : Web3)
  deriving DecidableEq, Repr

/-- The `{ fetcher, apiURL, network }` settings object handed to the SDK
constructors. -/
structure FetcherSettings where
  fetcher : Fetcher
  apiURL : String
  network : Nat

/-- Argument object assembled by the facade's `getRateByRoute`. -/
structure RateByRouteArgs where
  route : List AddressOrSymbol
  amount : PriceString
  userAddress : Option Address
  side : SwapSide
  options : Option RateOptions
  srcDecimals : Option Nat
  destDecimals : Option Nat

/-- Argument object assembled by the facade's `getRate`. -/
structure RateArgs where
  srcToken : AddressOrSymbol
  destToken : AddressOrSymbol
  amount : PriceString
  userAddress : Option Address
  side : SwapSide
  options : RateOptions
  srcDecimals : Option Nat
  destDecimals : Option Nat

/-- Argument object assembled by the facade's `buildTx` (the build options are
passed separately, as in the source). -/
structure BuildTxArgs where
  srcToken : Address
  destToken : Address
  srcAmount : PriceString
  destAmount : PriceString
  priceRoute : JsonVal
  userAddress : Address
  partner : Option String
  partnerAddress : Option String
  partnerFeeBps : Option Nat
  receiver : Option Address
  srcDecimals : Option Nat
  destDecimals : Option Nat
  permit : Option String
  deadline : Option String

/-- Options object passed to the SDK's `getAdapters`
(`{ type: 'object' }` or `{ type: 'list', namesOnly: true }`). -/
structure AdaptersOptions where
  type : String
  namesOnly : Option Bool

/-- Outcome of one delegated SDK call: a resolved payload or a rejection. -/
abbrev DelegateResult := Except Failure JsonVal

/-- Modelled from the spec: the behaviors of the external SDK method
constructors (`constructGetTokens`, `constructGetAdapters`, `constructGetRate`,
`constructBuildTx`, `constructGetSpender`, `constructGetBalances`, and the
allowance/approval constructors bundled by `constructSDK`), which live in the
sibling SDK module not present under `src/`. Each read method's behavior is an
opaque function of the fetcher settings; each allowance/approval method's
behavior additionally depends on the resolved contract-calling backend. -/
structure SDKImpls where
  getTokens : FetcherSettings → DelegateResult
  getAdapters : FetcherSettings → AdaptersOptions → DelegateResult
  getRateByRoute : FetcherSettings → RateByRouteArgs → DelegateResult
  getRate : FetcherSettings → RateArgs → DelegateResult
  buildTx : FetcherSettings → BuildTxArgs → BuildOptions → DelegateResult
  getSpender : FetcherSettings → DelegateResult
  getBalance : FetcherSettings → Address → AddressOrSymbol → DelegateResult
  getBalances : FetcherSettings → Address → DelegateResult
  getAllowance : FetcherSettings → ContractCaller → Address → Address → DelegateResult
  getAllowances : FetcherSettings → ContractCaller → Address → List Address → DelegateResult
  approveToken : FetcherSettings → ContractCaller → PriceString → Address → DelegateResult
  approveTokenBulk : FetcherSettings → ContractCaller → PriceString → List Address → DelegateResult

/-- The facade's internal `sdk: Partial<AllSDKMethods>`: each method is either
absent (`none`) or a function closing over its collaborator. -/
structure SDKMethods where
  getTokens : Option DelegateResult
  getAdapters : Option (AdaptersOptions → DelegateResult)
  getRateByRoute : Option (RateByRouteArgs → DelegateResult)
  getRate : Option (RateArgs → DelegateResult)
  buildTx : Option (BuildTxArgs → BuildOptions → DelegateResult)
  getSpender : Option DelegateResult
  getBalance : Option (Address → AddressOrSymbol → DelegateResult)
  getBalances : Option (Address → DelegateResult)
  getAllowance : Option (Address → Address → DelegateResult)
  getAllowances : Option (Address → List Address → DelegateResult)
  approveToken : Option (PriceString → Address → DelegateResult)
  approveTokenBulk : Option (PriceString → List Address → DelegateResult)

/-- The initial `sdk = {}` of the class field declaration. -/
def emptySDK : SDKMethods :=
  { getTokens := none, getAdapters := none, getRateByRoute := none, getRate := none,
    buildTx := none, getSpender := none, getBalance := none, getBalances := none,
    getAllowance := none, getAllowances := none,
    approveToken := none, approveTokenBulk := none }

/-- Modelled from the spec: `constructPartialSDK` applied to the six read-only
constructors — the read-only capability set of §4.2 step 2 (token listing,
balance queries, spender lookup, transaction building, adapter listing, rate
queries); no allowance or approval capability is attached. -/
def constructPartialSDK (impls : SDKImpls) (s : FetcherSettings) : SDKMethods :=
  { getTokens := some (impls.getTokens s),
    getAdapters := some (impls.getAdapters s),
    getRateByRoute := some (impls.getRateByRoute s),
    getRate := some (impls.getRate s),
    buildTx := some (impls.buildTx s),
    getSpender := some (impls.getSpender s),
    getBalance := some (impls.getBalance s),
    getBalances := some (impls.getBalances s),
    getAllowance := none, getAllowances := none,
    approveToken := none, approveTokenBulk := none }

/-- Modelled from the spec: `constructSDK({ fetcher, contractCaller, apiURL,
network })` — the full capability set of §4.2 step 3 (everything in the
read-only set plus allowance queries and approval transactions). -/
def constructSDK (impls : SDKImpls) (s : FetcherSettings) (cc : ContractCaller) : SDKMethods :=
  { getTokens := some (impls.getTokens s),
    getAdapters := some (impls.getAdapters s),
    getRateByRoute := some (impls.getRateByRoute s),
    getRate := some (impls.getRate s),
    buildTx := some (impls.buildTx s),
    getSpender := some (impls.getSpender s),
    getBalance := some (impls.getBalance s),
    getBalances := some (impls.getBalances s),
    getAllowance := some (impls.getAllowance s cc),
    getAllowances := some (impls.getAllowances s cc),
    approveToken := some (impls.approveToken s cc),
    approveTokenBulk := some (impls.approveTokenBulk s cc) }

/-- Transport resolution of the constructor: the axios-backed fetcher when an
axios client is supplied, else the fetch-backed fetcher when a fetch function
is supplied, else `null`. -/
def resolveFetcher : Option AxiosStatic → Option FetchFn → Option Fetcher
  | some a, _ => some (Fetcher.axiosFetcher a)
  | none, some f => some (Fetcher.fetchFetcher f)
  | none, none => none

/-- Contract-caller resolution of the constructor: the ethers-backed caller
when an ethers provider is supplied, else the web3-backed caller when a web3
provider is supplied, else `null`. -/
def resolveContractCaller : Option EthersProvider → Option Web3 → Option ContractCaller
  | some e, _ => some (ContractCaller.ethers e)
  | none, some w => some (ContractCaller.web3 w)
  | none, none => none

/-- A constructed `ParaSwap` instance: the constructor parameters kept on the
instance and the assembled internal capability set. -/
structure ParaSwap where
  network : Nat
  apiURL : String
  web3Provider : Option Web3
  ethersProvider : Option EthersProvider
  sdk : SDKMethods

/-- The `ParaSwap` constructor. The thrown
`assert(fetcher, 'at least one fetcher is needed')` is modelled as
`Except.error`; otherwise: with neither provider the partial (read-only) SDK
is assembled, else the contract caller is resolved (ethers preferred) and the
full SDK is assembled, and when no caller resolves the `sdk` field keeps its
initial empty value. -/
def mkParaSwap (impls : SDKImpls) (network : Nat) (apiURL : String)
    (web3Provider : Option Web3) (ethersProvider : Option EthersProvider)
    (axiosArg : Option AxiosStatic) (fetchArg : Option FetchFn) :
    Except String ParaSwap :=
  match resolveFetcher axiosArg fetchArg with
  | none => Except.error "at least one fetcher is needed"
  | some fetcher =>
    if web3Provider.isNone && ethersProvider.isNone then
      Except.ok { network := network, apiURL := apiURL, web3Provider := web3Provider,
                  ethersProvider := ethersProvider,
                  sdk := constructPartialSDK impls ⟨fetcher, apiURL, network⟩ }
    else
      match resolveContractCaller ethersProvider web3Provider with
      | some cc =>
          Except.ok { network := network, apiURL := apiURL, web3Provider := web3Provider,
                      ethersProvider := ethersProvider,
                      sdk := constructSDK impls ⟨fetcher, apiURL, network⟩ cc }
      | none =>
          Except.ok { network := network, apiURL := apiURL, web3Provider := web3Provider,
                      ethersProvider := ethersProvider, sdk := emptySDK }

/-- Outcome of one public facade operation: a thrown assertion
(misconfiguration — propagates, never normalized), a returned success payload,
or a returned `APIError` value. -/
inductive OpResult where
  | thrown (msg : String)
  | ok (v : JsonVal)
  | failed (e : APIError)

/-- The shared try/catch body of every forwarding method: a resolved delegate
call becomes the payload unchanged; a rejection is normalized by
`handleAPIError` — unless the normalization itself throws (the `TypeError` on
a `null` response body), which escapes the catch block as a raised condition. -/
def runDelegate : DelegateResult → OpResult
  | Except.ok v => OpResult.ok v
  | Except.error e =>
      match handleAPIError e with
      | Except.ok err => OpResult.failed err
      | Except.error t => OpResult.thrown t

/-- `setWeb3Provider`: the commented-out reinitialization was never written;
the method returns `this` untouched. -/
def ParaSwap.setWeb3Provider {α : Type} (p : ParaSwap) (_web3Provider : α) : ParaSwap :=
  p

/-- `getTokens`: assert the capability, delegate, normalize on failure. -/
def ParaSwap.getTokens (p : ParaSwap) : OpResult :=
  match p.sdk.getTokens with
  | none => OpResult.thrown "sdk must be initialized with a fetcher"
  | some r => runDelegate r

/-- `getAdapters`: delegates with `{ type: 'object' }`. -/
def ParaSwap.getAdapters (p : ParaSwap) : OpResult :=
  match p.sdk.getAdapters with
  | none => OpResult.thrown "sdk must be initialized with a fetcher"
  | some d => runDelegate (d ⟨"object", none⟩)

/-- `getMarketNames`: delegates to the adapters capability with
`{ type: 'list', namesOnly: true }`. -/
def ParaSwap.getMarketNames (p : ParaSwap) : OpResult :=
  match p.sdk.getAdapters with
  | none => OpResult.thrown "sdk must be initialized with a fetcher"
  | some d => runDelegate (d ⟨"list", some true⟩)

/-- `getRateByRoute`: assert the capability, reject routes shorter than two
hops locally with `{ message: 'Invalid Route' }`, else delegate with the
assembled argument object. -/
def ParaSwap.getRateByRoute (p : ParaSwap) (route : List AddressOrSymbol)
    (amount : PriceString) (userAddress : Option Address) (side : SwapSide)
    (options : Option RateOptions) (srcDecimals destDecimals : Option Nat) : OpResult :=
  match p.sdk.getRateByRoute with
  | none => OpResult.thrown "sdk must be initialized with a fetcher"
  | some d =>
    if route.length < 2 then
      OpResult.failed { message := some (JsonVal.str "Invalid Route"), status := none, data := none }
    else
      runDelegate (d ⟨route, amount, userAddress, side, options, srcDecimals, destDecimals⟩)

/-- `getRate`: assert the capability, delegate with the assembled argument
object. -/
def ParaSwap.getRate (p : ParaSwap) (srcToken destToken : AddressOrSymbol)
    (amount : PriceString) (userAddress : Option Address) (side : SwapSide)
    (options : RateOptions) (srcDecimals destDecimals : Option Nat) : OpResult :=
  match p.sdk.getRate with
  | none => OpResult.thrown "sdk must be initialized with a fetcher"
  | some d =>
      runDelegate (d ⟨srcToken, destToken, amount, userAddress, side, options,
                      srcDecimals, destDecimals⟩)

/-- `buildTx`: assert the capability, delegate with the assembled argument
object and the separate build options. -/
def ParaSwap.buildTx (p : ParaSwap) (srcToken destToken : Address)
    (srcAmount destAmount : PriceString) (priceRoute : JsonVal)
    (userAddress : Address) (partner partnerAddress : Option String)
    (partnerFeeBps : Option Nat) (receiver : Option Address)
    (options : BuildOptions) (srcDecimals destDecimals : Option Nat)
    (permit deadline : Option String) : OpResult :=
  match p.sdk.buildTx with
  | none => OpResult.thrown "sdk must be initialized with a fetcher"
  | some d =>
      runDelegate (d ⟨srcToken, destToken, srcAmount, destAmount, priceRoute,
                      userAddress, partner, partnerAddress, partnerFeeBps, receiver,
                      srcDecimals, destDecimals, permit, deadline⟩ options)

/-- `getTokenTransferProxy`: ignores its `_provider` argument and delegates to
the spender capability. -/
def ParaSwap.getTokenTransferProxy (p : ParaSwap) (_provider : Option JsonVal) : OpResult :=
  match p.sdk.getSpender with
  | none => OpResult.thrown "sdk must be initialized with a fetcher"
  | some r => runDelegate r

/-- `getAllowances`: assert the capability, delegate with user and token
addresses. -/
def ParaSwap.getAllowances (p : ParaSwap) (userAddress : Address)
    (tokenAddresses : List Address) : OpResult :=
  match p.sdk.getAllowances with
  | none => OpResult.thrown "sdk must be initialized with a fetcher"
  | some d => runDelegate (d userAddress tokenAddresses)

/-- `getAllowance`: assert the capability, delegate with user and token
address. -/
def ParaSwap.getAllowance (p : ParaSwap) (userAddress : Address)
    (tokenAddress : Address) : OpResult :=
  match p.sdk.getAllowance with
  | none => OpResult.thrown "sdk must be initialized with a fetcher"
  | some d => runDelegate (d userAddress tokenAddress)

/-- `approveTokenBulk`: assert the capability, then delegate with the amount
and token addresses only — `userAddress` and `_provider` are accepted but
never forwarded. -/
def ParaSwap.approveTokenBulk (p : ParaSwap) (amount : PriceString)
    (_userAddress : Address) (tokenAddresses : List Address)
    (_provider : Option JsonVal) : OpResult :=
  match p.sdk.approveTokenBulk with
  | none => OpResult.thrown "sdk must be initialized with a provider"
  | some d => runDelegate (d amount tokenAddresses)

/-- `approveToken`: assert the capability, then delegate with the amount and
token address only — `userAddress`, `_provider` and `sendOptions` are accepted
but never forwarded. -/
def ParaSwap.approveToken (p : ParaSwap) (amount : PriceString)
    (_userAddress : Address) (tokenAddress : Address)
    (_provider : Option JsonVal) (_sendOptions : Option SendOptions) : OpResult :=
  match p.sdk.approveToken with
  | none => OpResult.thrown "sdk must be initialized with a provider"
  | some d => runDelegate (d amount tokenAddress)

/-- `getBalance`: assert the capability, delegate with user address and token. -/
def ParaSwap.getBalance (p : ParaSwap) (userAddress : Address)
    (token : AddressOrSymbol) : OpResult :=
  match p.sdk.getBalance with
  | none => OpResult.thrown "sdk must be initialized with a fetcher"
  | some d => runDelegate (d userAddress token)

/-- `getBalances`: assert the capability, delegate with the user address. -/
def ParaSwap.getBalances (p : ParaSwap) (userAddress : Address) : OpResult :=
  match p.sdk.getBalances with
  | none => OpResult.thrown "sdk must be initialized with a fetcher"
  | some d => runDelegate (d userAddress)

/-- A concrete collaborator assignment: every external SDK method resolves with
`null`. Used to instantiate the universally quantified theorems below. -/
def trivialImpls : SDKImpls :=
  { getTokens := fun _ => Except.ok JsonVal.null,
    getAdapters := fun _ _ => Except.ok JsonVal.null,
    getRateByRoute := fun _ _ => Except.ok JsonVal.null,
    getRate := fun _ _ => Except.ok JsonVal.null,
    buildTx := fun _ _ _ => Except.ok JsonVal.null,
    getSpender := fun _ => Except.ok JsonVal.null,
    getBalance := fun _ _ _ => Except.ok JsonVal.null,
    getBalances := fun _ _ => Except.ok JsonVal.null,
    getAllowance := fun _ _ _ _ => Except.ok JsonVal.null,
    getAllowances := fun _ _ _ _ => Except.ok JsonVal.null,
    approveToken := fun _ _ _ _ => Except.ok JsonVal.null,
    approveTokenBulk := fun _ _ _ _ => Except.ok JsonVal.null }

/-- The instance produced by construction with only an axios transport. -/
def partialFacade : ParaSwap :=
  { network := 1, apiURL := "u", web3Provider := none, ethersProvider := none,
    sdk := constructPartialSDK trivialImpls ⟨Fetcher.axiosFetcher 0, "u", 1⟩ }

/-- The instance produced by construction with an axios transport and an
ethers provider. -/
def fullFacade : ParaSwap :=
  { network := 1, apiURL := "u", web3Provider := none, ethersProvider := some 7,
    sdk := constructSDK trivialImpls ⟨Fetcher.axiosFetcher 0, "u", 1⟩ (ContractCaller.ethers 7) }

/-- C1 counterexample: a transport failure carrying a 502 response whose body
is JSON `null` — reachable, since a server can answer with the literal body
`null`. There `data.error` throws a `TypeError` that escapes `handleAPIError`,
so no Normalized Error of any shape is returned, contrary to the claim's third
case. -/
theorem handleAPIError_null_body_counterexample :
    handleAPIError (Failure.axios "m" (some ⟨502, JsonVal.null⟩)) =
      Except.error (typeErrorNullRead "error") ∧
    handleAPIError (Failure.axios "m" (some ⟨502, JsonVal.null⟩)) ≠
      Except.ok { message := none, status := some 502, data := some JsonVal.null } :=
  ⟨rfl, fun h => Except.noConfusion h⟩

/-- C1 amended: `handleAPIError` is the claimed three-way case split — unknown
error for a non-axios failure, the failure's own message for an axios failure
with no response — except that in the third case the response body's `error`
field is read by a property access that only yields a value on non-null
bodies: when the access succeeds with `o` the result is
`{ status, message: o, data: body }`, and on a `null` body it throws a
`TypeError` that escapes, so nothing is returned. -/
theorem handleAPIError_three_way_split_amended :
    (∀ s, handleAPIError (Failure.other s) =
      Except.ok { message := some (JsonVal.str ("Unknown error: " ++ s)),
                  status := none, data := none }) ∧
    (∀ m, handleAPIError (Failure.axios m none) =
      Except.ok { message := some (JsonVal.str m), status := none, data := none }) ∧
    (∀ m st d o, jsonGet d "error" = Except.ok o →
      handleAPIError (Failure.axios m (some ⟨st, d⟩)) =
        Except.ok { message := o, status := some st, data := some d }) ∧
    (∀ m st, handleAPIError (Failure.axios m (some ⟨st, JsonVal.null⟩)) =
      Except.error (typeErrorNullRead "error")) := by
  refine ⟨fun _ => rfl, fun _ => rfl, ?_, fun _ _ => rfl⟩
  intro m st d o ho
  simp [handleAPIError, ho]

/-- Witness for C1 amended: the third case evaluated at a string body, whose
`error` access succeeds with `undefined`. -/
theorem handleAPIError_three_way_split_amended_witness :
    jsonGet (JsonVal.str "Bad Gateway") "error" = Except.ok none ∧
    handleAPIError (Failure.axios "m" (some ⟨502, JsonVal.str "Bad Gateway"⟩)) =
      Except.ok { message := none, status := some 502,
                  data := some (JsonVal.str "Bad Gateway") } :=
  ⟨rfl, handleAPIError_three_way_split_amended.2.2.1 "m" 502
    (JsonVal.str "Bad Gateway") none rfl⟩

/-- C2: construction resolves exactly one transport — an axios client wins
even when a fetch function is also given (the assembled SDK's methods close
over the axios-backed fetcher), else the fetch function is used, and with
neither supplied construction fails with "at least one fetcher is needed". -/
theorem constructor_transport_resolution :
    (∀ impls n url w e (a : AxiosStatic) (f : Option FetchFn),
      ∃ p, mkParaSwap impls n url w e (some a) f = Except.ok p ∧
        p.sdk.getTokens = some (impls.getTokens ⟨Fetcher.axiosFetcher a, url, n⟩)) ∧
    (∀ impls n url w e (f : FetchFn),
      ∃ p, mkParaSwap impls n url w e none (some f) = Except.ok p ∧
        p.sdk.getTokens = some (impls.getTokens ⟨Fetcher.fetchFetcher f, url, n⟩)) ∧
    (∀ impls n url w e,
      mkParaSwap impls n url w e none none =
        Except.error "at least one fetcher is needed") := by
  refine ⟨?_, ?_, ?_⟩
  · intro impls n url w e a f
    cases w <;> cases e <;> exact ⟨_, rfl, rfl⟩
  · intro impls n url w e f
    cases w <;> cases e <;> exact ⟨_, rfl, rfl⟩
  · intro impls n url w e
    rfl

/-- C3: construction with only a transport assembles the read-only capability
set — token listing, balance queries (single and bulk), spender lookup,
transaction building, adapter/market listing, rate queries — and excludes the
allowance and approval capabilities; invoking an excluded operation fails its
precondition check as a thrown condition, never as a normalized
`{ message, status?, data? }` value. -/
theorem readonly_construction_capabilities :
    ∀ impls n url a f p,
      mkParaSwap impls n url none none a f = Except.ok p →
      p.sdk.getTokens.isSome ∧ p.sdk.getBalance.isSome ∧ p.sdk.getBalances.isSome ∧
      p.sdk.getSpender.isSome ∧ p.sdk.buildTx.isSome ∧ p.sdk.getAdapters.isSome ∧
      p.sdk.getRate.isSome ∧ p.sdk.getRateByRoute.isSome ∧
      p.sdk.getAllowance = none ∧ p.sdk.getAllowances = none ∧
      p.sdk.approveToken = none ∧ p.sdk.approveTokenBulk = none ∧
      (∀ u ts, p.getAllowances u ts =
        OpResult.thrown "sdk must be initialized with a fetcher") ∧
      (∀ u t, p.getAllowance u t =
        OpResult.thrown "sdk must be initialized with a fetcher") ∧
      (∀ amt u ts pr, p.approveTokenBulk amt u ts pr =
        OpResult.thrown "sdk must be initialized with a provider") ∧
      (∀ amt u t pr so, p.approveToken amt u t pr so =
        OpResult.thrown "sdk must be initialized with a provider") := by
  intro impls n url a f p h
  cases a with
  | some a0 =>
    injection h with h
    subst h
    exact ⟨rfl, rfl, rfl, rfl, rfl, rfl, rfl, rfl, rfl, rfl, rfl, rfl,
           fun _ _ => rfl, fun _ _ => rfl, fun _ _ _ _ => rfl, fun _ _ _ _ _ => rfl⟩
  | none =>
    cases f with
    | some f0 =>
      injection h with h
      subst h
      exact ⟨rfl, rfl, rfl, rfl, rfl, rfl, rfl, rfl, rfl, rfl, rfl, rfl,
             fun _ _ => rfl, fun _ _ => rfl, fun _ _ _ _ => rfl, fun _ _ _ _ _ => rfl⟩
    | none => exact absurd h (by intro hc; exact Except.noConfusion hc)

/-- Witness for C3 at a concrete construction: only an axios transport. -/
theorem readonly_construction_capabilities_witness :
    partialFacade.sdk.getTokens.isSome ∧ partialFacade.sdk.getBalance.isSome ∧
    partialFacade.sdk.getBalances.isSome ∧ partialFacade.sdk.getSpender.isSome ∧
    partialFacade.sdk.buildTx.isSome ∧ partialFacade.sdk.getAdapters.isSome ∧
    partialFacade.sdk.getRate.isSome ∧ partialFacade.sdk.getRateByRoute.isSome ∧
    partialFacade.sdk.getAllowance = none ∧ partialFacade.sdk.getAllowances = none ∧
    partialFacade.sdk.approveToken = none ∧ partialFacade.sdk.approveTokenBulk = none ∧
    (∀ u ts, partialFacade.getAllowances u ts =
      OpResult.thrown "sdk must be initialized with a fetcher") ∧
    (∀ u t, partialFacade.getAllowance u t =
      OpResult.thrown "sdk must be initialized with a fetcher") ∧
    (∀ amt u ts pr, partialFacade.approveTokenBulk amt u ts pr =
      OpResult.thrown "sdk must be initialized with a provider") ∧
    (∀ amt u t pr so, partialFacade.approveToken amt u t pr so =
      OpResult.thrown "sdk must be initialized with a provider") :=
  readonly_construction_capabilities trivialImpls 1 "u" (some 0) none partialFacade rfl

/-- C4: construction with a transport plus at least one provider assembles the
full capability set (the read-only operations plus allowance and approval
operations), with the contract-calling backend taken from the ethers provider
when supplied and otherwise from the web3 provider. -/
theorem full_construction_capabilities :
    ∀ impls n url w e a f p,
      mkParaSwap impls n url w e a f = Except.ok p →
      (w.isSome ∨ e.isSome) →
      ∃ fr cc, resolveFetcher a f = some fr ∧
        resolveContractCaller e w = some cc ∧
        p.sdk = constructSDK impls ⟨fr, url, n⟩ cc ∧
        p.sdk.getTokens.isSome ∧ p.sdk.getBalance.isSome ∧ p.sdk.getBalances.isSome ∧
        p.sdk.getSpender.isSome ∧ p.sdk.buildTx.isSome ∧ p.sdk.getAdapters.isSome ∧
        p.sdk.getRate.isSome ∧ p.sdk.getRateByRoute.isSome ∧
        p.sdk.getAllowance.isSome ∧ p.sdk.getAllowances.isSome ∧
        p.sdk.approveToken.isSome ∧ p.sdk.approveTokenBulk.isSome ∧
        (∀ eth, e = some eth → cc = ContractCaller.ethers eth) ∧
        (e = none → ∀ w3, w = some w3 → cc = ContractCaller.web3 w3) := by
  intro impls n url w e a f p h hwe
  cases a with
  | some a0 =>
    cases w <;> cases e
    · simp at hwe
    · injection h with h
      subst h
      exact ⟨_, _, rfl, rfl, rfl, rfl, rfl, rfl, rfl, rfl, rfl, rfl, rfl, rfl, rfl,
             rfl, rfl, fun _ he => by injection he with he; subst he; rfl,
             fun he => Option.noConfusion he⟩
    · injection h with h
      subst h
      exact ⟨_, _, rfl, rfl, rfl, rfl, rfl, rfl, rfl, rfl, rfl, rfl, rfl, rfl, rfl,
             rfl, rfl, fun _ he => Option.noConfusion he,
             fun _ w3 hw => by injection hw with hw; subst hw; rfl⟩
    · injection h with h
      subst h
      exact ⟨_, _, rfl, rfl, rfl, rfl, rfl, rfl, rfl, rfl, rfl, rfl, rfl, rfl, rfl,
             rfl, rfl, fun _ he => by injection he with he; subst he; rfl,
             fun he => Option.noConfusion he⟩
  | none =>
    cases f with
    | some f0 =>
      cases w <;> cases e
      · simp at hwe
      · injection h with h
        subst h
        exact ⟨_, _, rfl, rfl, rfl, rfl, rfl, rfl, rfl, rfl, rfl, rfl, rfl, rfl, rfl,
               rfl, rfl, fun _ he => by injection he with he; subst he; rfl,
               fun he => Option.noConfusion he⟩
      · injection h with h
        subst h
        exact ⟨_, _, rfl, rfl, rfl, rfl, rfl, rfl, rfl, rfl, rfl, rfl, rfl, rfl, rfl,
               rfl, rfl, fun _ he => Option.noConfusion he,
               fun _ w3 hw => by injection hw with hw; subst hw; rfl⟩
      · injection h with h
        subst h
        exact ⟨_, _, rfl, rfl, rfl, rfl, rfl, rfl, rfl, rfl, rfl, rfl, rfl, rfl, rfl,
               rfl, rfl, fun _ he => by injection he with he; subst he; rfl,
               fun he => Option.noConfusion he⟩
    | none => exact absurd h (by intro hc; exact Except.noConfusion hc)

/-- Witness for C4 at a concrete construction: axios transport plus an ethers
provider. -/
theorem full_construction_capabilities_witness :
    ∃ fr cc, resolveFetcher (some 0) none = some fr ∧
      resolveContractCaller (some 7) none = some cc ∧
      fullFacade.sdk = constructSDK trivialImpls ⟨fr, "u", 1⟩ cc ∧
      fullFacade.sdk.getTokens.isSome ∧ fullFacade.sdk.getBalance.isSome ∧
      fullFacade.sdk.getBalances.isSome ∧
      fullFacade.sdk.getSpender.isSome ∧ fullFacade.sdk.buildTx.isSome ∧
      fullFacade.sdk.getAdapters.isSome ∧
      fullFacade.sdk.getRate.isSome ∧ fullFacade.sdk.getRateByRoute.isSome ∧
      fullFacade.sdk.getAllowance.isSome ∧ fullFacade.sdk.getAllowances.isSome ∧
      fullFacade.sdk.approveToken.isSome ∧ fullFacade.sdk.approveTokenBulk.isSome ∧
      (∀ eth, (some 7 : Option EthersProvider) = some eth →
        cc = ContractCaller.ethers eth) ∧
      ((some 7 : Option EthersProvider) = none → ∀ w3, (none : Option Web3) = some w3 →
        cc = ContractCaller.web3 w3) :=
  full_construction_capabilities trivialImpls 1 "u" none (some 7) (some 0) none
    fullFacade rfl (Or.inr rfl)

/-- C5: `getRateByRoute` with a route of fewer than two hops returns
`{ message: 'Invalid Route' }` without invoking the delegated capability (the
result is the same constant for every delegate), while a route of two or more
hops passes the local check and is delegated with the assembled argument
object. -/
theorem rateByRoute_short_route_local_rejection :
    ∀ (p : ParaSwap) (d : RateByRouteArgs → DelegateResult)
      (route : List AddressOrSymbol) (amount : PriceString) (u : Option Address)
      (side : SwapSide) (opts : Option RateOptions) (sd dd : Option Nat),
      p.sdk.getRateByRoute = some d →
      (route.length < 2 →
        p.getRateByRoute route amount u side opts sd dd =
          OpResult.failed { message := some (JsonVal.str "Invalid Route"),
                            status := none, data := none }) ∧
      (2 ≤ route.length →
        p.getRateByRoute route amount u side opts sd dd =
          runDelegate (d ⟨route, amount, u, side, opts, sd, dd⟩)) := by
  intro p d route amount u side opts sd dd h
  constructor
  · intro hlen
    simp [ParaSwap.getRateByRoute, h, hlen]
  · intro hlen
    simp [ParaSwap.getRateByRoute, h, Nat.not_lt.mpr hlen]

/-- Witness for C5 at a concrete instance and the empty route. -/
theorem rateByRoute_short_route_local_rejection_witness :
    ((([] : List AddressOrSymbol).length < 2 →
      partialFacade.getRateByRoute [] "100" none SwapSide.SELL none none none =
        OpResult.failed { message := some (JsonVal.str "Invalid Route"),
                          status := none, data := none }) ∧
     (2 ≤ ([] : List AddressOrSymbol).length →
      partialFacade.getRateByRoute [] "100" none SwapSide.SELL none none none =
        runDelegate (trivialImpls.getRateByRoute ⟨Fetcher.axiosFetcher 0, "u", 1⟩
          ⟨[], "100", none, SwapSide.SELL, none, none, none⟩))) ∧
    partialFacade.getRateByRoute [] "100" none SwapSide.SELL none none none =
      OpResult.failed { message := some (JsonVal.str "Invalid Route"),
                        status := none, data := none } := by
  have h := rateByRoute_short_route_local_rejection partialFacade
    (trivialImpls.getRateByRoute ⟨Fetcher.axiosFetcher 0, "u", 1⟩)
    [] "100" none SwapSide.SELL none none none rfl
  exact ⟨h, h.1 (by decide)⟩

/-- C6: the adapter registry maps "uniswap" to the v1 implementation and
"uniswapv2", "sushiswap", "defiswap", "linkswap" all to the distinct v2
implementation, and lookup of any identifier outside these five returns
not-found. -/
theorem adapter_registry_lookup :
    lookupDEX "uniswap" = some AdapterImpl.uniswapV1 ∧
    lookupDEX "uniswapv2" = some AdapterImpl.uniswapV2 ∧
    lookupDEX "uniswap" ≠ lookupDEX "uniswapv2" ∧
    lookupDEX "sushiswap" = lookupDEX "uniswapv2" ∧
    lookupDEX "defiswap" = lookupDEX "uniswapv2" ∧
    lookupDEX "linkswap" = lookupDEX "uniswapv2" ∧
    lookupDEX "nonexistent" = none ∧
    (∀ s, s ≠ "uniswap" → s ≠ "uniswapv2" → s ≠ "sushiswap" → s ≠ "defiswap" →
      s ≠ "linkswap" → lookupDEX s = none) := by
  refine ⟨by decide, by decide, by decide, by decide, by decide, by decide, by decide, ?_⟩
  intro s h1 h2 h3 h4 h5
  have b1 : (("uniswap" : String) == s) = false := beq_eq_false_iff_ne.mpr (Ne.symm h1)
  have b2 : (("uniswapv2" : String) == s) = false := beq_eq_false_iff_ne.mpr (Ne.symm h2)
  have b3 : (("sushiswap" : String) == s) = false := beq_eq_false_iff_ne.mpr (Ne.symm h3)
  have b4 : (("defiswap" : String) == s) = false := beq_eq_false_iff_ne.mpr (Ne.symm h4)
  have b5 : (("linkswap" : String) == s) = false := beq_eq_false_iff_ne.mpr (Ne.symm h5)
  simp [lookupDEX, DEXS, List.find?, b1, b2, b3, b4, b5]

/-- Witness for C6: the unknown-identifier branch evaluated at "nonexistent". -/
theorem adapter_registry_lookup_witness :
    lookupDEX "nonexistent" = none :=
  adapter_registry_lookup.2.2.2.2.2.2.2 "nonexistent"
    (by decide) (by decide) (by decide) (by decide) (by decide)

/-- C7: every public facade operation returns a successful delegate's result
value unchanged — for each operation, when its capability is present and the
delegated call resolves with payload `v`, the operation returns exactly `v`
with no renaming, filtering or wrapping. -/
theorem success_passthrough :
    ∀ (p : ParaSwap) (v : JsonVal),
      (p.sdk.getTokens = some (Except.ok v) → p.getTokens = OpResult.ok v) ∧
      (∀ d, p.sdk.getAdapters = some d → d ⟨"object", none⟩ = Except.ok v →
        p.getAdapters = OpResult.ok v) ∧
      (∀ d, p.sdk.getAdapters = some d → d ⟨"list", some true⟩ = Except.ok v →
        p.getMarketNames = OpResult.ok v) ∧
      (∀ d (args : RateByRouteArgs), p.sdk.getRateByRoute = some d →
        2 ≤ args.route.length → d args = Except.ok v →
        p.getRateByRoute args.route args.amount args.userAddress args.side
          args.options args.srcDecimals args.destDecimals = OpResult.ok v) ∧
      (∀ d (args : RateArgs), p.sdk.getRate = some d → d args = Except.ok v →
        p.getRate args.srcToken args.destToken args.amount args.userAddress
          args.side args.options args.srcDecimals args.destDecimals = OpResult.ok v) ∧
      (∀ d (args : BuildTxArgs) (opts : BuildOptions), p.sdk.buildTx = some d →
        d args opts = Except.ok v →
        p.buildTx args.srcToken args.destToken args.srcAmount args.destAmount
          args.priceRoute args.userAddress args.partner args.partnerAddress
          args.partnerFeeBps args.receiver opts args.srcDecimals args.destDecimals
          args.permit args.deadline = OpResult.ok v) ∧
      (∀ pr, p.sdk.getSpender = some (Except.ok v) →
        p.getTokenTransferProxy pr = OpResult.ok v) ∧
      (∀ d u ts, p.sdk.getAllowances = some d →
        d u ts = Except.ok v → p.getAllowances u ts = OpResult.ok v) ∧
      (∀ d u t, p.sdk.getAllowance = some d →
        d u t = Except.ok v → p.getAllowance u t = OpResult.ok v) ∧
      (∀ d amt u ts pr, p.sdk.approveTokenBulk = some d →
        d amt ts = Except.ok v → p.approveTokenBulk amt u ts pr = OpResult.ok v) ∧
      (∀ d amt u t pr so, p.sdk.approveToken = some d →
        d amt t = Except.ok v → p.approveToken amt u t pr so = OpResult.ok v) ∧
      (∀ d u t, p.sdk.getBalance = some d →
        d u t = Except.ok v → p.getBalance u t = OpResult.ok v) ∧
      (∀ d u, p.sdk.getBalances = some d →
        d u = Except.ok v → p.getBalances u = OpResult.ok v) := by
  intro p v
  refine ⟨?_, ?_, ?_, ?_, ?_, ?_, ?_, ?_, ?_, ?_, ?_, ?_, ?_⟩
  · intro h
    simp [ParaSwap.getTokens, h, runDelegate]
  · intro d h hd
    simp [ParaSwap.getAdapters, h, hd, runDelegate]
  · intro d h hd
    simp [ParaSwap.getMarketNames, h, hd, runDelegate]
  · intro d args h hlen hd
    simp [ParaSwap.getRateByRoute, h, Nat.not_lt.mpr hlen, hd, runDelegate]
  · intro d args h hd
    simp [ParaSwap.getRate, h, hd, runDelegate]
  · intro d args opts h hd
    simp [ParaSwap.buildTx, h, hd, runDelegate]
  · intro pr h
    simp [ParaSwap.getTokenTransferProxy, h, runDelegate]
  · intro d u ts h hd
    simp [ParaSwap.getAllowances, h, hd, runDelegate]
  · intro d u t h hd
    simp [ParaSwap.getAllowance, h, hd, runDelegate]
  · intro d amt u ts pr h hd
    simp [ParaSwap.approveTokenBulk, h, hd, runDelegate]
  · intro d amt u t pr so h hd
    simp [ParaSwap.approveToken, h, hd, runDelegate]
  · intro d u t h hd
    simp [ParaSwap.getBalance, h, hd, runDelegate]
  · intro d u h hd
    simp [ParaSwap.getBalances, h, hd, runDelegate]

/-- Witness for C7 at a concrete instance whose delegates resolve with `null`. -/
theorem success_passthrough_witness :
    fullFacade.getTokens = OpResult.ok JsonVal.null ∧
    fullFacade.approveToken "5" "alice" "tok" none none = OpResult.ok JsonVal.null := by
  have h := success_passthrough fullFacade JsonVal.null
  exact ⟨h.1 rfl, h.2.2.2.2.2.2.2.2.2.2.1 _ "5" "alice" "tok" none none rfl rfl⟩

/-- Facade whose token-listing delegate rejects with an axios failure whose
server response body is a plain string, carrying no `error` field. -/
def badGatewayFacade : ParaSwap :=
  { network := 1, apiURL := "u", web3Provider := none, ethersProvider := none,
    sdk := { emptySDK with getTokens := some (Except.error (Failure.axios
      "Request failed with status code 502" (some ⟨502, JsonVal.str "Bad Gateway"⟩))) } }

/-- C8 counterexample: a public facade operation produces a Normalized Error
whose `message` field is undefined — the delegated call rejected with a
transport failure carrying a 502 response whose body is the plain string
"Bad Gateway", so `data.error` is `undefined` and the returned value has no
defined `message`. -/
theorem normalized_error_message_counterexample :
    badGatewayFacade.getTokens =
      OpResult.failed { message := none, status := some 502,
                        data := some (JsonVal.str "Bad Gateway") } := rfl

/-- C8 amended: every Normalized Error actually returned by the normalization
carries a defined `message` field, except when the failure carries a server
response whose non-null body has no `error` field — there the property access
succeeds with `undefined` and the returned value has no defined `message`.
(On a `null` body no Normalized Error is returned at all: the access throws.) -/
theorem normalized_error_message_present_amended :
    ∀ (e : Failure) (err : APIError), handleAPIError e = Except.ok err →
      err.message.isSome = true ∨
      ∃ m r, e = Failure.axios m (some r) ∧
        jsonGet r.data "error" = Except.ok none := by
  intro e err h
  match e with
  | Failure.other s =>
    injection h with h
    subst h
    exact Or.inl rfl
  | Failure.axios m none =>
    injection h with h
    subst h
    exact Or.inl rfl
  | Failure.axios m (some r) =>
    cases hr : jsonGet r.data "error" with
    | error t => simp [handleAPIError, hr] at h
    | ok o =>
      cases o with
      | none => exact Or.inr ⟨m, r, rfl, hr⟩
      | some w =>
        simp only [handleAPIError, hr] at h
        injection h with h
        subst h
        exact Or.inl rfl

/-- Witness for C8 amended at a network-level failure with message "timeout":
the returned Normalized Error has a defined message. -/
theorem normalized_error_message_present_amended_witness :
    ({ message := some (JsonVal.str "timeout"), status := none,
       data := none } : APIError).message.isSome = true ∨
      ∃ m r, Failure.axios "timeout" (none : Option AxiosResponse) =
          Failure.axios m (some r) ∧
        jsonGet r.data "error" = Except.ok none :=
  normalized_error_message_present_amended (Failure.axios "timeout" none)
    { message := some (JsonVal.str "timeout"), status := none, data := none } rfl

/-- C9: `setWeb3Provider` mutates nothing — for every instance and every
argument it returns the same instance, and the capability set, network id,
API URL and stored provider references are all unchanged. -/
theorem setWeb3Provider_noop :
    ∀ (p : ParaSwap) (α : Type) (w : α),
      p.setWeb3Provider w = p ∧
      (p.setWeb3Provider w).sdk = p.sdk ∧
      (p.setWeb3Provider w).network = p.network ∧
      (p.setWeb3Provider w).apiURL = p.apiURL ∧
      (p.setWeb3Provider w).web3Provider = p.web3Provider ∧
      (p.setWeb3Provider w).ethersProvider = p.ethersProvider :=
  fun _ _ _ => ⟨rfl, rfl, rfl, rfl, rfl, rfl⟩

/-- C10: the approval operations ignore their `userAddress` and `_provider`
arguments — two invocations differing only in those arguments produce equal
results, and when the capability is present the delegate is invoked with the
amount and the token address(es) only. -/
theorem approve_ignores_user_and_provider :
    ∀ (p : ParaSwap) (amount : PriceString) (u1 u2 t : Address)
      (ts : List Address) (pr1 pr2 : Option JsonVal) (so : Option SendOptions),
      p.approveToken amount u1 t pr1 so = p.approveToken amount u2 t pr2 so ∧
      p.approveTokenBulk amount u1 ts pr1 = p.approveTokenBulk amount u2 ts pr2 ∧
      (∀ d, p.sdk.approveToken = some d →
        p.approveToken amount u1 t pr1 so = runDelegate (d amount t)) ∧
      (∀ d, p.sdk.approveTokenBulk = some d →
        p.approveTokenBulk amount u1 ts pr1 = runDelegate (d amount ts)) := by
  intro p amount u1 u2 t ts pr1 pr2 so
  refine ⟨rfl, rfl, ?_, ?_⟩
  · intro d h
    simp [ParaSwap.approveToken, h]
  · intro d h
    simp [ParaSwap.approveTokenBulk, h]

/-- Witness for C10 at a concrete instance: changing the user address and the
provider argument leaves the result unchanged, and the delegate sees only the
amount and token address. -/
theorem approve_ignores_user_and_provider_witness :
    fullFacade.approveToken "5" "alice" "tok" none none =
      fullFacade.approveToken "5" "bob" "tok" (some JsonVal.null) none ∧
    fullFacade.approveToken "5" "alice" "tok" none none =
      runDelegate (trivialImpls.approveToken ⟨Fetcher.axiosFetcher 0, "u", 1⟩
        (ContractCaller.ethers 7) "5" "tok") := by
  have h := approve_ignores_user_and_provider fullFacade "5" "alice" "bob" "tok"
    [] none (some JsonVal.null) none
  exact ⟨h.1, h.2.2.1 _ rfl⟩
